import Mathlib

/-!
Verification of the task-health-monitor repository: a shallow embedding of
`error_grouper.py`, `results_analyzer.py`, `db_executor.py`, `json_utils.py`,
`claude_analyzer_enhanced.py`, `newrelic_client.py` and `github_client.py`,
with theorems settling the frozen behavioural claims about those modules.

Strings are modelled over `List Char`; the embedding covers the ASCII
character classes that the repository's regular expressions use
(the monitored messages are ASCII).  Machine integers do not overflow in the
source (row counts, day counts), so `Nat`/`Int` are used directly.
-/

namespace TaskMonitor

/-! ## Character classes (Python `re` semantics, ASCII fragment)

`\w` is `[A-Za-z0-9_]`, `\s` is `[ \t\n\r\x0b\x0c]`, `\d` is `[0-9]`,
hex digits are `[0-9a-fA-F]`. -/

def isSpaceC (c : Char) : Bool :=
  c = ' ' || c = '\t' || c = '\n' || c = '\r' || c = '\x0b' || c = '\x0c'

def isWordC (c : Char) : Bool :=
  c.isAlphanum || c = '_'

def isHexC (c : Char) : Bool :=
  c.isDigit || ('a' ≤ c && c ≤ 'f') || ('A' ≤ c && c ≤ 'F')

/-- Python `\b` before a word character: true at the start of the string or
after a non-word character. -/
def boundaryOK : Option Char → Bool
  | none => true
  | some c => !isWordC c

/-- Match a literal character sequence (case sensitive), returning the rest. -/
def matchLit : List Char → List Char → Option (List Char)
  | [], l => some l
  | p :: ps, c :: cs => if c = p then matchLit ps cs else none
  | _ :: _, [] => none

/-- Match a literal (given in lowercase) case-insensitively; returns the
original matched characters and the rest. -/
def matchLitCI : List Char → List Char → Option (List Char × List Char)
  | [], l => some ([], l)
  | p :: ps, c :: cs =>
    if c.toLower = p then
      match matchLitCI ps cs with
      | some (orig, rest) => some (c :: orig, rest)
      | none => none
    else none
  | _ :: _, [] => none

/-- Exactly `n` hex characters. -/
def matchHexN : Nat → List Char → Option (List Char)
  | 0, l => some l
  | n + 1, c :: cs => if isHexC c then matchHexN n cs else none
  | _ + 1, [] => none

/-- Exactly `n` decimal digits. -/
def matchDigitN : Nat → List Char → Option (List Char)
  | 0, l => some l
  | n + 1, c :: cs => if c.isDigit then matchDigitN n cs else none
  | _ + 1, [] => none

def matchDash : List Char → Option (List Char)
  | '-' :: t => some t
  | _ => none

def matchColon : List Char → Option (List Char)
  | ':' :: t => some t
  | _ => none

/-! ## The substitution passes of `normalize_error_message`
(`error_grouper.py`, lines 9-52).  Each Python `re.sub` is one
left-to-right scan over the string: at each position the pattern is tried;
on success the replacement is emitted and scanning resumes after the match,
otherwise the character is copied and scanning advances by one.  The scans
are written with a fuel argument (instantiated with the string length plus
one, ample since every step consumes at least one character) so that they
are structurally recursive and kernel-evaluable. -/

/-- `re.sub` pattern 1: a UUID shape
`[0-9a-fA-F]{8}-[0-9a-fA-F]{4}-[0-9a-fA-F]{4}-[0-9a-fA-F]{4}-[0-9a-fA-F]{12}`. -/
def uuidTry (l : List Char) : Option (List Char) := do
  let r ← matchHexN 8 l
  let r ← matchDash r
  let r ← matchHexN 4 r
  let r ← matchDash r
  let r ← matchHexN 4 r
  let r ← matchDash r
  let r ← matchHexN 4 r
  let r ← matchDash r
  matchHexN 12 r

def subUUID : Nat → List Char → List Char
  | 0, l => l
  | _ + 1, [] => []
  | fuel + 1, c :: cs =>
    match uuidTry (c :: cs) with
    | some rest => "{UUID}".data ++ subUUID fuel rest
    | none => c :: subUUID fuel cs

/-- The suffix `\s*[#:]?\s*(\d+)\b` of the keyword pattern.  The character
classes are pairwise disjoint, so Python's greedy matching is deterministic
here; the only backtracking possibility (`\d+` shrinking before `\b`) can
never succeed because a boundary between two digits is word-word. -/
def kwTailTry (l : List Char) : Option (List Char) :=
  let r1 := l.dropWhile isSpaceC
  let r2 := match r1 with
    | '#' :: t => t
    | ':' :: t => t
    | _ => r1
  let r3 := r2.dropWhile isSpaceC
  let (ds, rest) := r3.span (fun c => c.isDigit)
  if ds.isEmpty then none
  else
    match rest with
    | [] => some rest
    | c :: _ => if isWordC c then none else some rest

/-- Alternatives of `(order|pedido|task|id|seller|seller_id)` in the
pattern's order; Python alternation takes the first branch for which the
whole pattern matches. -/
def kwAlternatives : List (List Char) :=
  ["order".data, "pedido".data, "task".data, "id".data,
   "seller".data, "seller_id".data]

def kwFind : List (List Char) → List Char → Option (List Char × List Char)
  | [], _ => none
  | k :: ks, l =>
    match matchLitCI k l with
    | some (orig, r) =>
      match kwTailTry r with
      | some rest => some (orig, rest)
      | none => kwFind ks l
    | none => kwFind ks l

/-- `re.sub` pattern 2:
`\b(order|pedido|task|id|seller|seller_id)\s*[#:]?\s*(\d+)\b` (IGNORECASE),
replacement `\1 {ID}`.  A successful match always ends in a digit, so the
previous-character tracking after a replacement uses a digit. -/
def subKeyword : Nat → Option Char → List Char → List Char
  | 0, _, l => l
  | _ + 1, _, [] => []
  | fuel + 1, prev, c :: cs =>
    match (if boundaryOK prev then kwFind kwAlternatives (c :: cs) else none) with
    | some (orig, rest) => (orig ++ " {ID}".data) ++ subKeyword fuel (some '0') rest
    | none => c :: subKeyword fuel (some c) cs

/-- `re.sub` pattern 3: `#(\d+)`, replacement `#{ID}`. -/
def subHash : Nat → List Char → List Char
  | 0, l => l
  | _ + 1, [] => []
  | fuel + 1, '#' :: cs =>
    let (ds, rest) := cs.span (fun c => c.isDigit)
    if ds.isEmpty then '#' :: subHash fuel cs
    else "#{ID}".data ++ subHash fuel rest
  | fuel + 1, c :: cs => c :: subHash fuel cs

/-- `re.sub` pattern 4: `\bid\s*=\s*(\d+)` (IGNORECASE), replacement `id={ID}`. -/
def idEqTry (prev : Option Char) (l : List Char) : Option (List Char) :=
  if boundaryOK prev then
    match matchLitCI "id".data l with
    | some (_, r) =>
      let r1 := r.dropWhile isSpaceC
      match r1 with
      | '=' :: t =>
        let r2 := t.dropWhile isSpaceC
        let (ds, rest) := r2.span (fun c => c.isDigit)
        if ds.isEmpty then none else some rest
      | _ => none
    | none => none
  else none

def subIdEq : Nat → Option Char → List Char → List Char
  | 0, _, l => l
  | _ + 1, _, [] => []
  | fuel + 1, prev, c :: cs =>
    match idEqTry prev (c :: cs) with
    | some rest => "id={ID}".data ++ subIdEq fuel (some '0') rest
    | none => c :: subIdEq fuel (some c) cs

/-- `re.sub` pattern 5: `\d{4}-\d{2}-\d{2}[T\s]\d{2}:\d{2}:\d{2}`. -/
def tsTry (l : List Char) : Option (List Char) := do
  let r ← matchDigitN 4 l
  let r ← matchDash r
  let r ← matchDigitN 2 r
  let r ← matchDash r
  let r ← matchDigitN 2 r
  let r ← (match r with
    | c :: t => if c = 'T' || isSpaceC c then some t else none
    | [] => none)
  let r ← matchDigitN 2 r
  let r ← matchColon r
  let r ← matchDigitN 2 r
  let r ← matchColon r
  matchDigitN 2 r

def subTimestamp : Nat → List Char → List Char
  | 0, l => l
  | _ + 1, [] => []
  | fuel + 1, c :: cs =>
    match tsTry (c :: cs) with
    | some rest => "{TIMESTAMP}".data ++ subTimestamp fuel rest
    | none => c :: subTimestamp fuel cs

/-- `re.sub` pattern 6: `\d{4}-\d{2}-\d{2}`. -/
def dateTry (l : List Char) : Option (List Char) := do
  let r ← matchDigitN 4 l
  let r ← matchDash r
  let r ← matchDigitN 2 r
  let r ← matchDash r
  matchDigitN 2 r

def subDate : Nat → List Char → List Char
  | 0, l => l
  | _ + 1, [] => []
  | fuel + 1, c :: cs =>
    match dateTry (c :: cs) with
    | some rest => "{DATE}".data ++ subDate fuel rest
    | none => c :: subDate fuel cs

/-- `re.sub` pattern 7: `\b\d{5,}\b`.  The greedy run must be bounded by
non-word characters on both sides (shrinking `\d{5,}` before `\b` cannot
succeed, a digit-digit position is never a boundary). -/
def longNumTry (prev : Option Char) (l : List Char) : Option (List Char) :=
  if boundaryOK prev then
    let (ds, rest) := l.span (fun c => c.isDigit)
    if 5 ≤ ds.length then
      match rest with
      | [] => some rest
      | c :: _ => if isWordC c then none else some rest
    else none
  else none

def subLongNum : Nat → Option Char → List Char → List Char
  | 0, _, l => l
  | _ + 1, _, [] => []
  | fuel + 1, prev, c :: cs =>
    match longNumTry prev (c :: cs) with
    | some rest => "{ID}".data ++ subLongNum fuel (some '0') rest
    | none => c :: subLongNum fuel (some c) cs

/-- One `\d{1,3}\.` group of the IP pattern: greedy with backtracking, which
succeeds exactly when the digit run at this position has length 1-3 and is
followed by a dot (a longer run leaves a digit where the dot must be, for
every backtracked length). -/
def ipGroupTry (l : List Char) : Option (List Char) :=
  let (ds, rest) := l.span (fun c => c.isDigit)
  if 1 ≤ ds.length && ds.length ≤ 3 then
    match rest with
    | '.' :: t => some t
    | _ => none
  else none

/-- `re.sub` pattern 8: `\d{1,3}\.\d{1,3}\.\d{1,3}\.\d{1,3}`; the final
group greedily takes up to three digits with no trailing requirement. -/
def ipTry (l : List Char) : Option (List Char) := do
  let r ← ipGroupTry l
  let r ← ipGroupTry r
  let r ← ipGroupTry r
  let (ds, rest) := r.span (fun c => c.isDigit)
  if ds.isEmpty then none else some (ds.drop 3 ++ rest)

def subIP : Nat → List Char → List Char
  | 0, l => l
  | _ + 1, [] => []
  | fuel + 1, c :: cs =>
    match ipTry (c :: cs) with
    | some rest => "{IP}".data ++ subIP fuel rest
    | none => c :: subIP fuel cs

/-- `re.sub` pattern 9: `https?://[^\s]+`. -/
def urlTry (l : List Char) : Option (List Char) :=
  match matchLit "http".data l with
  | none => none
  | some r =>
    let r2 := match matchLit "s://".data r with
      | some t => some t
      | none => matchLit "://".data r
    match r2 with
    | none => none
    | some t =>
      let (body, rest) := t.span (fun c => !isSpaceC c)
      if body.isEmpty then none else some rest

def subURL : Nat → List Char → List Char
  | 0, l => l
  | _ + 1, [] => []
  | fuel + 1, c :: cs =>
    match urlTry (c :: cs) with
    | some rest => "{URL}".data ++ subURL fuel rest
    | none => c :: subURL fuel cs

/-- Python `str.strip()` on the whitespace the repository's messages use. -/
def pyStrip (l : List Char) : List Char :=
  ((l.dropWhile isSpaceC).reverse.dropWhile isSpaceC).reverse

/-- `normalize_error_message` (`error_grouper.py`, lines 9-52).  The argument
is `Option String`: `none` models a missing/`None` message; Python's
`if not error_message` is true exactly for `None` and the empty string. -/
def normalize_error_message (msg : Option String) : String :=
  match msg with
  | none => "No error message"
  | some s =>
    if s = "" then "No error message"
    else
      let l0 := s.data
      let l1 := subUUID (l0.length + 1) l0
      let l2 := subKeyword (l1.length + 1) none l1
      let l3 := subHash (l2.length + 1) l2
      let l4 := subIdEq (l3.length + 1) none l3
      let l5 := subTimestamp (l4.length + 1) l4
      let l6 := subDate (l5.length + 1) l5
      let l7 := subLongNum (l6.length + 1) none l6
      let l8 := subIP (l7.length + 1) l7
      let l9 := subURL (l8.length + 1) l8
      String.mk (pyStrip l9)

/-! ## Row / task data model

A database row (`cursor(dictionary=True)` result) as the analyzer and
grouper consume it.  `Option` fields model absent keys; the `task` table
columns that the analyzed code reads are all represented.  A `last_run`
value is either a `datetime` — modelled by its distance from
`datetime.now()` in whole days, `(datetime.now() - last_run).days`, plus
its `'%Y-%m-%d %H:%M:%S'` rendering — or a plain string, which is what a
JSON reload produces. -/

inductive LastRunVal where
  | dt (daysAgo : Int) (render : String)
  | s (v : String)
deriving DecidableEq

/-- The `data` column payload: a raw string, or an already-decoded mapping
(of which the code only ever reads the `seller_id` key). -/
inductive PyData where
  | str (v : String)
  | dict (seller_id : Option Nat)
deriving DecidableEq

structure Task where
  id : Option Nat := none
  last_run : Option LastRunVal := none
  exception : Option String := none
  error_message : Option String := none
  seller_id : Option Nat := none
  data : Option PyData := none
  type_ : Option String := none
  sub_type : Option String := none
  error_count : Option Nat := none
deriving DecidableEq

/-- Python truthiness of a `last_run` value (`if first_task.get('last_run')`):
a `datetime` is always truthy, a string is truthy when nonempty. -/
def lastRunTruthy : Option LastRunVal → Bool
  | none => false
  | some (.dt _ _) => true
  | some (.s v) => v ≠ ""

/-- `str(...)` of a `last_run` value (empty for an absent key, matching
`str(task.get('last_run', ''))`). -/
def pyStrLastRun : Option LastRunVal → String
  | none => ""
  | some (.dt _ render) => render
  | some (.s v) => v

/-- The apostrophe character, for Python quote handling. -/
def aposC : Char := Char.ofNat 39

def aposS : String := String.mk [aposC]

/-- `str(...)` of a `data` payload (Python renders a mapping as
`\x7b'seller_id': n\x7d`); empty for an absent key. -/
def pyStrData : Option PyData → String
  | none => ""
  | some (.str s) => s
  | some (.dict none) => "\x7b\x7d"
  | some (.dict (some n)) =>
    "\x7b" ++ aposS ++ "seller_id" ++ aposS ++ ": " ++ toString n ++ "\x7d"

/-! ## `extract_seller_ids` (`error_grouper.py`, lines 55-83) -/

/-- The `\s*[:"]\s*(\d+)` tail of the seller-id search pattern. -/
def sellerIdFinish (r : List Char) : Option (List Char) :=
  let r1 := r.dropWhile isSpaceC
  match r1 with
  | c :: cs =>
    if c = ':' || c = '"' then
      let r2 := cs.dropWhile isSpaceC
      let (ds, _) := r2.span (fun c => c.isDigit)
      if ds.isEmpty then none else some ds
    else none
  | [] => none

/-- One attempt of `re.search(r'["\x27]?seller_id["\x27]?\s*[:"]\s*(\d+)', ...)`
at a position: a leading quote, if present, must be consumed (the literal
cannot start at a quote); for a trailing quote the greedy path (consume it)
is tried before leaving it for the `[:"]` class. -/
def sellerIdTryAt (l : List Char) : Option (List Char) :=
  let l1 := match l with
    | c :: cs => if c = '"' || c = aposC then cs else l
    | [] => l
  match matchLit "seller_id".data l1 with
  | none => none
  | some r =>
    match r with
    | c :: cs =>
      if c = '"' || c = aposC then
        match sellerIdFinish cs with
        | some ds => some ds
        | none => sellerIdFinish r
      else sellerIdFinish r
    | [] => none

/-- Leftmost `re.search` for the seller-id pattern, returning the captured
digit group. -/
def searchSellerId : Nat → List Char → Option (List Char)
  | 0, _ => none
  | _ + 1, [] => none
  | fuel + 1, c :: cs =>
    match sellerIdTryAt (c :: cs) with
    | some ds => some ds
    | none => searchSellerId fuel cs

/-- Add to a set modelled as an insertion-ordered duplicate-free list (the
code only ever consumes these sets through `sorted(list(...))`). -/
def insertNew (x : String) (l : List String) : List String :=
  if l.contains x then l else l ++ [x]

/-- `extract_seller_ids` (`error_grouper.py`).  A falsy `data` value (empty
string / empty mapping) contributes nothing through either branch, so the
`if data:` guard needs no separate modelling. -/
def extract_seller_ids (tasks : List Task) : List String :=
  tasks.foldl (fun acc task =>
    let acc1 := match task.seller_id with
      | some n => if n ≠ 0 then insertNew (toString n) acc else acc
      | none => acc
    match task.data with
    | some (.str s) =>
      (match searchSellerId (s.data.length + 1) s.data with
       | some ds => insertNew (String.mk ds) acc1
       | none => acc1)
    | some (.dict (some m)) => if m ≠ 0 then insertNew (toString m) acc1 else acc1
    | _ => acc1) []

/-! ## `group_errors_by_pattern` / `create_error_groups_for_issue`
(`error_grouper.py`, lines 86-194).  Python dicts preserve insertion order;
they are modelled as association lists where a new key is appended at the
end. -/

def updAList {α : Type} (k : String) (d : α) (f : α → α) :
    List (String × α) → List (String × α)
  | [] => [(k, f d)]
  | (k2, v) :: rest =>
    if k2 = k then (k2, f v) :: rest else (k2, v) :: updAList k d f rest

/-- The mutable per-pattern accumulator of `group_errors_by_pattern`. -/
structure PatternGroup where
  pattern : String
  count : Nat
  example_task : Option Task
  seller_ids : List String
  all_tasks : List Task
deriving DecidableEq

def emptyPG : PatternGroup := ⟨"", 0, none, [], []⟩

def addTaskToPG (normalized : String) (task : Task) (g : PatternGroup) : PatternGroup :=
  { pattern := normalized
    count := g.count + 1
    all_tasks := g.all_tasks ++ [task]
    example_task := match g.example_task with
      | none => some task
      | some t => some t
    seller_ids := (extract_seller_ids [task]).foldl (fun acc s => insertNew s acc) g.seller_ids }

/-- One iteration of the grouping loop of `group_errors_by_pattern`. -/
def groupStep (acc : List (String × List (String × PatternGroup))) (task : Task) :
    List (String × List (String × PatternGroup)) :=
  let exception := task.exception.getD "UnknownException"
  let normalized := normalize_error_message task.error_message
  updAList exception [] (updAList normalized emptyPG (addTaskToPG normalized task)) acc

/-- The grouping loop of `group_errors_by_pattern` (before the conversion to
the returned plain dicts). -/
def groupErrorsAux (tasks : List Task) : List (String × List (String × PatternGroup)) :=
  tasks.foldl groupStep []

/-- One entry of the dict returned by `group_errors_by_pattern`. -/
structure GroupEntry where
  pattern : String
  count : Nat
  example_task : Option Task
  seller_ids : List String
  task_ids : List (Option Nat)
deriving DecidableEq

def sortStrings (l : List String) : List String :=
  l.insertionSort (· ≤ ·)

def convertPG (g : PatternGroup) : GroupEntry :=
  { pattern := g.pattern
    count := g.count
    example_task := g.example_task
    seller_ids := sortStrings g.seller_ids
    task_ids := (g.all_tasks.take 10).map (·.id) }

/-- `group_errors_by_pattern` (`error_grouper.py`): group, then convert each
accumulator (sorted seller ids, task ids limited to the first 10). -/
def group_errors_by_pattern (tasks : List Task) :
    List (String × List (String × GroupEntry)) :=
  (groupErrorsAux tasks).map (fun p => (p.1, p.2.map (fun q => (q.1, convertPG q.2))))

structure ExampleTask where
  id : Option Nat
  last_run : String
  exception : String
  error_message : String
  data : String
deriving DecidableEq

structure ErrorGroup where
  group_key : String
  exception : String
  pattern : String
  original_message : String
  count : Nat
  seller_ids : List String
  task_ids : List (Option Nat)
  example_task : ExampleTask
  common_type : Option String := none
  common_subtype : Option (Option String) := none
deriving DecidableEq

def mkExampleTask (exc : String) (et : Option Task) : ExampleTask :=
  match et with
  | none => ⟨none, "", exc, "", ""⟩
  | some t =>
    ⟨t.id, pyStrLastRun t.last_run, exc,
     (t.error_message.getD "").take 300, (pyStrData t.data).take 200⟩

/-- `create_error_groups_for_issue` (`error_grouper.py`, lines 149-194):
flatten the grouped dict in insertion order, then
`error_groups.sort(key=lambda x: x['count'], reverse=True)` — a stable
descending sort, modelled by `insertionSort` with `b.count ≤ a.count`. -/
def create_error_groups_for_issue (data : List Task) : List ErrorGroup :=
  let grouped := group_errors_by_pattern data
  let error_groups := grouped.foldl (fun acc p =>
    acc ++ p.2.map (fun q =>
      { group_key := p.1 ++ "::" ++ q.1.take 50
        exception := p.1
        pattern := q.2.pattern
        original_message := match q.2.example_task with
          | some t => (t.error_message.getD "").take 300
          | none => ""
        count := q.2.count
        seller_ids := q.2.seller_ids
        task_ids := q.2.task_ids
        example_task := mkExampleTask p.1 q.2.example_task })) []
  error_groups.insertionSort (fun a b => b.count ≤ a.count)

/-! ## Query results and the analyzer (`results_analyzer.py`) -/

/-- One entry of the results mapping produced by the executor (and consumed
by the analyzer): `count`, `data`, `description`, and — set only by the
catch-all branch — `is_catchall` (absent key modelled as `false`, matching
`result.get('is_catchall')`), `total_before_filter`, `filtered_count`;
`error` is set when the query failed. -/
structure QResult where
  count : Nat
  data : List Task
  description : String
  is_catchall : Bool := false
  error : Option String := none
  total_before_filter : Option Nat := none
  filtered_count : Option Nat := none
deriving DecidableEq

/-- The `oldest_task` summary of `_build_issue` (the `last_run` text is the
timestamp's rendering — `strftime('%Y-%m-%d %H:%M:%S')` for a `datetime`,
`str(...)` otherwise). -/
structure OldestTask where
  id : Option Nat
  last_run : String
  exception : Option String
  error_message : String
deriving DecidableEq

/-- The issue dict built by `_build_issue`.  Fields after `is_uncategorized`
model keys that are only present on some paths. -/
structure FullIssue where
  name : String
  description : String
  count : Nat
  data : List Task
  is_uncategorized : Bool
  total_before_filter : Option Nat := none
  filtered_count : Option Nat := none
  error_types : Option (List (String × Nat)) := none
  error_groups : Option (List ErrorGroup) := none
  affected_sellers : Option (List String) := none
  oldest_task : Option OldestTask := none
deriving DecidableEq

/-- An element of an analysis bucket: either the reduced
`name/description/count` shape appended for `count == 0`, or a full issue. -/
inductive Issue where
  | brief (name description : String) (count : Nat)
  | full (i : FullIssue)
deriving DecidableEq

def Issue.name : Issue → String
  | .brief n _ _ => n
  | .full i => i.name

/-- `max(counts, key=counts.get)` on an insertion-ordered histogram: the
first key attaining the maximum (Python's `max` replaces the current best
only on a strictly greater key). -/
def argmaxFirst (l : List (String × Nat)) : Option String :=
  (l.foldl (fun best p =>
    match best with
    | none => some p
    | some q => if p.2 > q.2 then some p else some q) none).map (·.1)

/-- The histogram loop `exceptions[exc] = exceptions.get(exc, 0) + 1`. -/
def excHistogram (data : List Task) : List (String × Nat) :=
  data.foldl (fun acc task => updAList (task.exception.getD "Unknown") 0 (· + 1) acc) []

def typeHistogram (data : List Task) : List (String × Nat) :=
  data.foldl (fun acc task => updAList (task.type_.getD "Unknown") 0 (· + 1) acc) []

def subtypeHistogram (data : List Task) : List (String × Nat) :=
  data.foldl (fun acc task =>
    let st := task.sub_type.getD ""
    if st ≠ "" then updAList st 0 (· + 1) acc else acc) []

def mkOldest (t : Task) : Option OldestTask :=
  if lastRunTruthy t.last_run then
    some ⟨t.id, pyStrLastRun t.last_run, t.exception, (t.error_message.getD "").take 200⟩
  else none

/-- `_build_issue` (`results_analyzer.py`, lines 80-150). -/
def buildIssue (query_name : String) (result : QResult) (data : List Task)
    (is_uncategorized : Bool) : FullIssue :=
  let base : FullIssue :=
    { name := query_name
      description := result.description
      count := result.count
      data := data.take 5
      is_uncategorized := is_uncategorized
      total_before_filter :=
        if is_uncategorized then some (result.total_before_filter.getD 0) else none
      filtered_count :=
        if is_uncategorized then some (result.filtered_count.getD 0) else none }
  match data with
  | [] => base
  | t0 :: _ =>
    let egroups0 := create_error_groups_for_issue data
    let egroups :=
      if is_uncategorized then
        let commonT := (argmaxFirst (typeHistogram data)).getD "Unknown"
        let commonST := argmaxFirst (subtypeHistogram data)
        egroups0.map (fun g => { g with common_type := some commonT
                                        common_subtype := some commonST })
      else egroups0
    { base with
      error_types := some (excHistogram data)
      error_groups := some egroups
      affected_sellers := some (sortStrings (extract_seller_ids data))
      oldest_task := mkOldest t0 }

inductive Bucket where
  | critical
  | high
  | medium
  | okB
  | uncategorized
deriving DecidableEq

/-- The very-old check of `analyze_results` (lines 53-62): the first row's
`last_run` is truthy, is a `datetime`, and `(datetime.now() - last_run).days`
exceeds 15. -/
def veryOldTasks (data : List Task) : Bool :=
  match data with
  | [] => false
  | t :: _ =>
    if lastRunTruthy t.last_run then
      match t.last_run with
      | some (.dt age _) => age > 15
      | _ => false
    else false

/-- The priority chain of `analyze_results` (lines 64-72). -/
def priorityOf (query_name : String) (count : Nat) (veryOld : Bool) : Bucket :=
  if count > 10 || veryOld then .critical
  else if count ≥ 5 || query_name = "LIVERPOOL_CONFIRM" || query_name = "WMS" then .high
  else if count ≥ 2 then .medium
  else .okB

/-- What `analyze_results` appends for one `(query_name, result)` pair, and
to which bucket — `none` when nothing is appended. -/
def resultEntry (query_name : String) (result : QResult) : Option (Bucket × Issue) :=
  let count := result.count
  let data := result.data
  if result.is_catchall then
    if count > 0 then
      some (.uncategorized, .full (buildIssue query_name result data true))
    else none
  else if count = 0 then
    some (.okB, .brief query_name result.description count)
  else
    some (priorityOf query_name count (veryOldTasks data),
          .full (buildIssue query_name result data false))

structure Analysis where
  critical : List Issue
  high : List Issue
  medium : List Issue
  ok : List Issue
  uncategorized : List Issue
deriving DecidableEq

def Analysis.bucketList (a : Analysis) : Bucket → List Issue
  | .critical => a.critical
  | .high => a.high
  | .medium => a.medium
  | .okB => a.ok
  | .uncategorized => a.uncategorized

def consBucket : Option (Bucket × Issue) → Analysis → Analysis
  | none, a => a
  | some (.critical, i), a => { a with critical := i :: a.critical }
  | some (.high, i), a => { a with high := i :: a.high }
  | some (.medium, i), a => { a with medium := i :: a.medium }
  | some (.okB, i), a => { a with ok := i :: a.ok }
  | some (.uncategorized, i), a => { a with uncategorized := i :: a.uncategorized }

/-- `analyze_results` (`results_analyzer.py`, lines 9-77).  The Python loop
appends each result's entry to its bucket in mapping-iteration order;
building the lists by consing the head result's entry onto the analysis of
the remaining results yields exactly those lists. -/
def analyze_results : List (String × QResult) → Analysis
  | [] => ⟨[], [], [], [], []⟩
  | (n, r) :: rest => consBucket (resultEntry n r) (analyze_results rest)

/-! ## The executor (`db_executor.py`) and the query catalog (`queries.py`)

A query's SQL text determines its rows via the database state; the
database is modelled as an outcome function keyed by the query's (unique)
name: `.ok rows` for a successful `execute`/`fetchall`, `.error e` for a
raised exception. -/

structure QuerySpec where
  name : String
  description : String
deriving DecidableEq

/-- The `QUERIES` catalog of `queries.py` (names and descriptions; the SQL
semantics are the database outcome function). -/
def QUERIES : List QuerySpec :=
  [⟨"TOKEN", "Token renewal tasks stuck"⟩,
   ⟨"POLLING", "Marketplace polling tasks stuck"⟩,
   ⟨"UPDATE_ITEMS_FORCE", "Forced item update tasks stuck"⟩,
   ⟨"WEBHOOKS", "Webhook processing tasks stuck"⟩,
   ⟨"WMS", "WMS integration tasks with errors"⟩,
   ⟨"CHECK_STOCK", "Stock verification tasks stuck"⟩,
   ⟨"CREATION", "Order creation tasks stuck"⟩,
   ⟨"LIVERPOOL_CONFIRM", "Liverpool order confirmation failures"⟩,
   ⟨"ODOO", "Odoo integration tasks stuck"⟩,
   ⟨"MELI_REVIEW_UPDATE", "MercadoLibre review update tasks stuck"⟩,
   ⟨"ITEM_UPDATE", "Item update tasks stuck"⟩,
   ⟨"ORDER_UPDATE", "Order update tasks stuck"⟩,
   ⟨"STATS", "Statistics tasks stuck"⟩,
   ⟨"FILES", "File processing tasks stuck"⟩,
   ⟨"INTERNAL_SHIPMENT", "Internal shipment tasks stuck"⟩,
   ⟨"ORDER_UPDATE_REFUND", "Order refund update tasks stuck"⟩,
   ⟨"ZIPNOVA", "Zipnova shipping tasks stuck"⟩]

def UNCATEGORIZED_ERRORS_QUERY : QuerySpec :=
  ⟨"UNCATEGORIZED_ERRORS",
   "Active tasks with errors (>10) not captured by specific queries - suggests new monitoring queries"⟩

/-- Python truthiness of `row.get('id')` (`if row.get('id')`). -/
def truthyId : Option Nat → Bool
  | none => false
  | some n => n ≠ 0

/-- The result recorded for one typed query (`db_executor.py`, lines 40-67). -/
def typedQResult (q : QuerySpec) : Except String (List Task) → QResult
  | .ok rows => { count := rows.length, data := rows, description := q.description }
  | .error e => { count := 0, data := [], description := q.description, error := some e }

def insertIdNew (n : Nat) (l : List Nat) : List Nat :=
  if l.contains n then l else l ++ [n]

/-- `processed_task_ids.add(row['id'])` for each row with a truthy id
(the `for row in rows` loop, written as recursion over the rows). -/
def collectIds (processed : List Nat) : List Task → List Nat
  | [] => processed
  | row :: rest =>
    collectIds
      (match row.id with
       | some n => if n ≠ 0 then insertIdNew n processed else processed
       | none => processed) rest

/-- The typed-query loop: results in execution order, with the
processed-id set threaded through (a failed query contributes no ids).
The loop appends each result at the end; the recursion builds the same
list by consing the head query's result onto the rest. -/
def runTypedAux (db : String → Except String (List Task)) :
    List QuerySpec → List Nat → List (String × QResult) × List Nat
  | [], processed => ([], processed)
  | q :: qs, processed =>
    match db q.name with
    | .ok rows =>
      let rest := runTypedAux db qs (collectIds processed rows)
      ((q.name, typedQResult q (.ok rows)) :: rest.1, rest.2)
    | .error e =>
      let rest := runTypedAux db qs processed
      ((q.name, typedQResult q (.error e)) :: rest.1, rest.2)

def runTypedQueries (queries : List QuerySpec) (db : String → Except String (List Task)) :
    List (String × QResult) × List Nat :=
  runTypedAux db queries []

/-- The catch-all result (`db_executor.py`, lines 72-104): filter out rows
whose `id` is already in the processed set (`row.get('id') not in ...` — a
missing id is never in the set, so such rows are kept). -/
def catchallQResult (q : QuerySpec) (processed : List Nat) :
    Except String (List Task) → QResult
  | .ok allRows =>
    let filtered := allRows.filter (fun row =>
      match row.id with
      | some n => !(processed.contains n)
      | none => true)
    { count := filtered.length
      data := filtered
      description := q.description
      is_catchall := true
      total_before_filter := some allRows.length
      filtered_count := some (allRows.length - filtered.length) }
  | .error e =>
    { count := 0, data := [], description := q.description
      error := some e, is_catchall := true }

structure ExecOutcome where
  results : List (String × QResult)
  cursorClosed : Bool
  connectionClosed : Bool
deriving DecidableEq

/-- `execute_all_queries` (`db_executor.py`, lines 11-112), from the point
where the connection and cursor exist (the failed-connection early return
at lines 24-26 yields an empty mapping before any cursor is created and is
outside this model).  Every exception raised in the `try` body is caught by
the per-query handlers, so the `finally` block always runs: the cursor and
connection closes are recorded unconditionally. -/
def execute_all_queries (queries : List QuerySpec) (catchall : QuerySpec)
    (db : String → Except String (List Task)) : ExecOutcome :=
  let tp := runTypedQueries queries db
  { results := tp.1 ++ [(catchall.name, catchallQResult catchall tp.2 (db catchall.name))]
    cursorClosed := true
    connectionClosed := true }

/-! ## The JSON round-trip (`json_utils.py`)

`save_json` writes `json.dump(data, ..., default=str)`: every JSON-native
value (strings, integers, booleans, lists, mappings) is serialized
unchanged, and a `datetime` — the only non-native value in a results
mapping — is stringified by `str`.  `load_json` parses the file back.  The
composition therefore reproduces the results mapping with each `datetime`
replaced by its text rendering. -/

def rtLastRun : LastRunVal → LastRunVal
  | .dt _ render => .s render
  | .s v => .s v

def rtTask (t : Task) : Task :=
  { t with last_run := t.last_run.map rtLastRun }

def rtResult (r : QResult) : QResult :=
  { r with data := r.data.map rtTask }

/-- `load_json(save_json(results, ...))` on a results mapping. -/
def saveLoadRoundTrip (rs : List (String × QResult)) : List (String × QResult) :=
  rs.map (fun p => (p.1, rtResult p.2))

/-! ## The LLM tool-calling loop (`claude_analyzer_enhanced.py`)

`analyze_with_claude` (lines 209-255) and `analyze_single_error`
(lines 361-401) contain the identical loop: after the initial API call,
`while response.stop_reason == "tool_use" and iteration < max_iterations`
(with `max_iterations = 10`) the iteration counter is incremented, the
requested tools are executed, and the model is re-invoked.  The backend is
modelled as the sequence of API-call responses: `backend n` is the response
of call number `n` (call 0 is the initial one); the message bookkeeping
affects neither the loop control nor which response becomes final. -/

structure ModelResponse where
  stop_reason : String
  content : String
deriving DecidableEq

/-- The loop body; the fuel is `max_iterations - iteration`, so
`iteration < max_iterations` is exactly `fuel > 0`. -/
def toolLoopAux (backend : Nat → ModelResponse) :
    Nat → Nat → ModelResponse → ModelResponse × Nat
  | 0, iteration, resp => (resp, iteration)
  | fuel + 1, iteration, resp =>
    if resp.stop_reason = "tool_use" then
      toolLoopAux backend fuel (iteration + 1) (backend (iteration + 1))
    else (resp, iteration)

/-- The loop with the source's `max_iterations = 10` and `iteration = 0`,
started on the initial call's response; returns the response used as final
and the iteration count reported as `tool_iterations`. -/
def runToolLoop (backend : Nat → ModelResponse) : ModelResponse × Nat :=
  toolLoopAux backend 10 0 (backend 0)

/-! ## The tool dispatchers (`newrelic_client.py` lines 274-314,
`github_client.py` lines 352-415)

The underlying client is modelled by an outcome record: `init` is the
constructor (`NewRelicClient()` / `GitHubClient()` raise a `ValueError`
when the credentials are missing), and each method either returns data or
raises.  A raised Python exception is `.error msg`; `str(KeyError(k))` is
the quoted key. -/

inductive ToolOutcome (α : Type) where
  | success (data : α)
  | failure (error : String)
deriving DecidableEq

def keyErr (k : String) : String := aposS ++ k ++ aposS

structure NRToolInput where
  task_id : Option String := none
  error_pattern : Option String := none
  days_back : Option Nat := none
  limit : Option Nat := none
deriving DecidableEq

structure NRBackend (α : Type) where
  init : Except String Unit
  get_error_by_task_id : String → Nat → Except String α
  get_errors_by_pattern : String → Nat → Nat → Except String α
  get_error_count_by_pattern : String → Nat → Except String α

def wrapCall {α : Type} : Except String α → ToolOutcome α
  | .ok d => .success d
  | .error e => .failure e

/-- `execute_newrelic_tool`: the whole body is inside `try`, so a
constructor failure, a missing input key, or a raising client call all
produce the error envelope; an unrecognized name yields the unknown-tool
envelope. -/
def execute_newrelic_tool {α : Type} (b : NRBackend α) (tool_name : String)
    (tool_input : NRToolInput) : ToolOutcome α :=
  match b.init with
  | .error e => .failure e
  | .ok _ =>
    if tool_name = "newrelic_get_error_by_task_id" then
      match tool_input.task_id with
      | none => .failure (keyErr "task_id")
      | some tid => wrapCall (b.get_error_by_task_id tid (tool_input.days_back.getD 7))
    else if tool_name = "newrelic_get_errors_by_pattern" then
      match tool_input.error_pattern with
      | none => .failure (keyErr "error_pattern")
      | some p =>
        wrapCall (b.get_errors_by_pattern p (tool_input.days_back.getD 7)
          (tool_input.limit.getD 10))
    else if tool_name = "newrelic_get_error_stats" then
      match tool_input.error_pattern with
      | none => .failure (keyErr "error_pattern")
      | some p => wrapCall (b.get_error_count_by_pattern p (tool_input.days_back.getD 7))
    else .failure ("Unknown tool: " ++ tool_name)

structure GHToolInput where
  file_path : Option String := none
  branch : Option String := none
  stack_trace : Option String := none
  max_files : Option Nat := none
  line_number : Option Nat := none
  context_lines : Option Nat := none
  filename : Option String := none
deriving DecidableEq

structure GHBackend (α : Type) where
  init : Except String Unit
  get_file_content : String → String → String → String → Except String α
  get_files_from_stack_trace : String → String → String → Nat → String → Except String α
  get_code_context : String → String → String → Nat → Nat → String → Except String α
  search_file : String → String → String → Except String α

/-- `execute_github_tool` with its `owner`/`repo` defaults. -/
def execute_github_tool {α : Type} (b : GHBackend α) (tool_name : String)
    (tool_input : GHToolInput) (owner : String := "elevva")
    (repo : String := "elevvate-core") : ToolOutcome α :=
  match b.init with
  | .error e => .failure e
  | .ok _ =>
    if tool_name = "github_get_file" then
      match tool_input.file_path with
      | none => .failure (keyErr "file_path")
      | some p =>
        wrapCall (b.get_file_content owner repo p (tool_input.branch.getD "develop"))
    else if tool_name = "github_get_code_from_stack_trace" then
      match tool_input.stack_trace with
      | none => .failure (keyErr "stack_trace")
      | some st =>
        wrapCall (b.get_files_from_stack_trace owner repo st
          (tool_input.max_files.getD 5) (tool_input.branch.getD "develop"))
    else if tool_name = "github_get_code_context" then
      match tool_input.file_path with
      | none => .failure (keyErr "file_path")
      | some p =>
        match tool_input.line_number with
        | none => .failure (keyErr "line_number")
        | some ln =>
          wrapCall (b.get_code_context owner repo p ln
            (tool_input.context_lines.getD 10) (tool_input.branch.getD "develop"))
    else if tool_name = "github_search_file" then
      match tool_input.filename with
      | none => .failure (keyErr "filename")
      | some fn => wrapCall (b.search_file owner repo fn)
    else .failure ("Unknown tool: " ++ tool_name)

/-! ## The spec-side formulation of the age rule -/

/-- The claim wording "the first row's `last_run` is a datetime more than
15 days in the past" (at whole-day granularity, as both the spec and
`(datetime.now() - last_run).days` speak in days). -/
def firstRowVeryOld (data : List Task) : Prop :=
  ∃ t a rend, data.head? = some t ∧ t.last_run = some (.dt a rend) ∧ 15 < a

/-- The bucket an issue's own fields dictate; used to show an issue can
never sit in two different buckets. -/
def issueBucket : Issue → Bucket
  | .brief _ _ _ => .okB
  | .full i =>
    if i.is_uncategorized then .uncategorized
    else priorityOf i.name i.count (veryOldTasks i.data)

/-- The issue `analyze_results` builds for a non-catch-all result with
positive count. -/
def mkIssue (n : String) (r : QResult) : Issue :=
  .full (buildIssue n r r.data false)

/-! ## Concrete fixtures for witnesses and counterexamples -/

def c1R : QResult :=
  { count := 12
    data := []
    description := "Token renewal tasks stuck" }

def c1Results : List (String × QResult) := [("TOKEN", c1R)]

def c2R : QResult :=
  { count := 1
    data := [{ id := some 5, last_run := some (.dt 3 "2025-10-09 12:00:00"),
               exception := some "TimeoutError", error_message := some "boom" }]
    description := "Marketplace polling tasks stuck" }

def c2Results : List (String × QResult) := [("POLLING", c2R)]

def c8R : QResult :=
  { count := 1
    data := [{ id := some 9, last_run := some (.dt 20 "2025-09-22 08:00:00"),
               exception := some "RuntimeError", error_message := some "stale" }]
    description := "Odoo integration tasks stuck" }

def c8Results : List (String × QResult) := [("ODOO", c8R)]

def c10R : QResult :=
  { count := 0
    data := []
    description := "Active tasks with errors (>10) not captured by specific queries - suggests new monitoring queries"
    is_catchall := true
    total_before_filter := some 4
    filtered_count := some 4 }

def c10Results : List (String × QResult) := [("UNCATEGORIZED_ERRORS", c10R)]

/-- The catch-all entry recorded at the end of a run (the last element of
the executor's results). -/
def catchallRes (queries : List QuerySpec) (catchall : QuerySpec)
    (db : String → Except String (List Task)) : QResult :=
  catchallQResult catchall (runTypedQueries queries db).2 (db catchall.name)

def wmsSpec : QuerySpec := ⟨"WMS", "WMS integration tasks with errors"⟩

def wmsRow : Task :=
  { id := some 101, last_run := some (.dt 2 "2025-10-10 09:00:00"),
    exception := some "WmsIntegrationError", error_message := some "wms down",
    error_count := some 15 }

def otherRow : Task :=
  { id := some 202, last_run := some (.dt 1 "2025-10-11 07:30:00"),
    exception := some "ValueError", error_message := some "unmapped",
    error_count := some 12 }

def c3db : String → Except String (List Task) := fun name =>
  if name = "WMS" then .ok [wmsRow]
  else if name = "UNCATEGORIZED_ERRORS" then .ok [wmsRow, otherRow]
  else .ok []

def c4db : String → Except String (List Task) := fun name =>
  if name = "POLLING" then .error "Lost connection to MySQL server"
  else .ok []

/-- A simulated LLM backend that always requests tools. -/
def c7Backend : Nat → ModelResponse :=
  fun _ => ⟨"tool_use", "requesting newrelic_get_error_stats"⟩

/-- An APM client whose constructor raises (missing credentials). -/
def c9NR : NRBackend String :=
  { init := .error "NEW_RELIC_API_KEY not provided"
    get_error_by_task_id := fun _ _ => .ok "trace"
    get_errors_by_pattern := fun _ _ _ => .ok "errors"
    get_error_count_by_pattern := fun _ _ => .ok "stats" }

/-- A source-host client with working credentials. -/
def c9GH : GHBackend String :=
  { init := .ok ()
    get_file_content := fun _ _ _ _ => .error "404 Client Error"
    get_files_from_stack_trace := fun _ _ _ _ _ => .ok "files"
    get_code_context := fun _ _ _ _ _ _ => .ok "context"
    search_file := fun _ _ _ => .ok "results" }

def c6Task (k : Nat) : Task :=
  { id := some (k + 1), exception := some "ShopifyApiError",
    error_message := some "boom" }

/-- Fifteen tasks sharing one exception and one normalized pattern. -/
def c6Tasks : List Task := (List.range 15).map c6Task

/-! ## Structural lemmas -/

theorem veryOldTasks_iff (data : List Task) :
    veryOldTasks data = true ↔ firstRowVeryOld data := by
  cases data with
  | nil => simp [veryOldTasks, firstRowVeryOld]
  | cons t ts =>
    simp only [veryOldTasks, firstRowVeryOld, List.head?]
    cases hlr : t.last_run with
    | none => simp [lastRunTruthy, hlr]
    | some v =>
      cases v with
      | dt a rend =>
        simp only [lastRunTruthy, if_pos]
        constructor
        · intro h
          exact ⟨t, a, rend, rfl, hlr, by simpa using h⟩
        · rintro ⟨t', a', rend', ht, hl, ha⟩
          cases ht
          rw [hlr] at hl
          cases hl
          simpa using ha
      | s v =>
        simp only [lastRunTruthy]
        constructor
        · intro h
          by_cases hv : v = "" <;> simp [hv] at h
        · rintro ⟨t', a', rend', ht, hl, _⟩
          cases ht
          rw [hlr] at hl
          cases hl

theorem buildIssue_name (n : String) (r : QResult) (d : List Task) (u : Bool) :
    (buildIssue n r d u).name = n := by
  cases d <;> rfl

theorem buildIssue_count (n : String) (r : QResult) (d : List Task) (u : Bool) :
    (buildIssue n r d u).count = r.count := by
  cases d <;> rfl

theorem buildIssue_data (n : String) (r : QResult) (d : List Task) (u : Bool) :
    (buildIssue n r d u).data = d.take 5 := by
  cases d <;> rfl

theorem buildIssue_is_uncategorized (n : String) (r : QResult) (d : List Task) (u : Bool) :
    (buildIssue n r d u).is_uncategorized = u := by
  cases d <;> rfl

theorem veryOldTasks_take (data : List Task) : veryOldTasks (data.take 5) = veryOldTasks data := by
  cases data <;> rfl

theorem bucketList_consBucket_none (a : Analysis) (b : Bucket) :
    (consBucket none a).bucketList b = a.bucketList b := rfl

theorem bucketList_consBucket_same (b : Bucket) (i : Issue) (a : Analysis) :
    (consBucket (some (b, i)) a).bucketList b = i :: a.bucketList b := by
  cases b <;> rfl

theorem bucketList_consBucket_ne {b' b : Bucket} (h : b' ≠ b) (i : Issue) (a : Analysis) :
    (consBucket (some (b', i)) a).bucketList b = a.bucketList b := by
  cases b' <;> cases b <;> first | rfl | exact absurd rfl h

/-- An entry `analyze_results` produces for a pair in the input ends up in
that bucket's list. -/
theorem mem_bucket_of_entry {rs : List (String × QResult)} {n : String} {r : QResult}
    {b : Bucket} {i : Issue} (hmem : (n, r) ∈ rs) (he : resultEntry n r = some (b, i)) :
    i ∈ (analyze_results rs).bucketList b := by
  induction rs with
  | nil => cases hmem
  | cons hd tl ih =>
    obtain ⟨n', r'⟩ := hd
    rcases List.mem_cons.mp hmem with heq | hmem'
    · cases heq
      simp only [analyze_results]
      rw [he, bucketList_consBucket_same]
      exact List.mem_cons_self _ _
    · have hi := ih hmem'
      simp only [analyze_results]
      rcases hre : resultEntry n' r' with _ | ⟨b', i'⟩
      · rw [bucketList_consBucket_none]
        exact hi
      · by_cases hb : b' = b
        · subst hb
          rw [bucketList_consBucket_same]
          exact List.mem_cons_of_mem _ hi
        · rw [bucketList_consBucket_ne hb]
          exact hi

/-- Conversely, every issue in a bucket list arose as some input pair's
entry for that bucket. -/
theorem entry_of_mem_bucket {rs : List (String × QResult)} {b : Bucket} {i : Issue}
    (h : i ∈ (analyze_results rs).bucketList b) :
    ∃ p, p ∈ rs ∧ resultEntry p.1 p.2 = some (b, i) := by
  induction rs with
  | nil => cases b <;> simp [analyze_results, Analysis.bucketList] at h
  | cons hd tl ih =>
    obtain ⟨n', r'⟩ := hd
    simp only [analyze_results] at h
    rcases hre : resultEntry n' r' with _ | ⟨b', i'⟩
    · rw [hre, bucketList_consBucket_none] at h
      obtain ⟨p, hp, hpe⟩ := ih h
      exact ⟨p, List.mem_cons_of_mem _ hp, hpe⟩
    · by_cases hb : b' = b
      · subst hb
        rw [hre, bucketList_consBucket_same] at h
        rcases List.mem_cons.mp h with heq | h'
        · subst heq
          exact ⟨(n', r'), List.mem_cons_self _ _, hre⟩
        · obtain ⟨p, hp, hpe⟩ := ih h'
          exact ⟨p, List.mem_cons_of_mem _ hp, hpe⟩
      · rw [hre, bucketList_consBucket_ne hb] at h
        obtain ⟨p, hp, hpe⟩ := ih h
        exact ⟨p, List.mem_cons_of_mem _ hp, hpe⟩

/-- Every produced entry carries the query's own name. -/
theorem name_of_entry {n : String} {r : QResult} {b : Bucket} {i : Issue}
    (h : resultEntry n r = some (b, i)) : i.name = n := by
  unfold resultEntry at h
  by_cases hc : r.is_catchall <;> simp only [hc, if_true, if_false, Bool.false_eq_true] at h
  · by_cases h0 : r.count > 0 <;> simp only [h0, if_true, if_false] at h
    · cases h
      simp [Issue.name, buildIssue_name]
    · cases h
  · by_cases h0 : r.count = 0 <;> simp only [h0, if_true, if_false] at h
    · cases h
      simp [Issue.name]
    · cases h
      simp [Issue.name, buildIssue_name]

/-- The bucket of an entry is a function of the issue's own fields. -/
theorem bucket_eq_issueBucket {n : String} {r : QResult} {b : Bucket} {i : Issue}
    (h : resultEntry n r = some (b, i)) : b = issueBucket i := by
  unfold resultEntry at h
  by_cases hc : r.is_catchall <;> simp only [hc, if_true, if_false, Bool.false_eq_true] at h
  · by_cases h0 : r.count > 0 <;> simp only [h0, if_true, if_false] at h
    · cases h
      simp [issueBucket, buildIssue_is_uncategorized]
    · cases h
  · by_cases h0 : r.count = 0 <;> simp only [h0, if_true, if_false] at h
    · cases h
      simp [issueBucket]
    · cases h
      simp [issueBucket, buildIssue_is_uncategorized, buildIssue_name, buildIssue_count,
        buildIssue_data, veryOldTasks_take]

/-- Distinct-key association lists: a key determines its value. -/
theorem nodup_key_unique {rs : List (String × QResult)} (hnd : (rs.map Prod.fst).Nodup)
    {n : String} {r r' : QResult} (h1 : (n, r) ∈ rs) (h2 : (n, r') ∈ rs) : r = r' := by
  induction rs with
  | nil => cases h1
  | cons hd tl ih =>
    simp only [List.map_cons, List.nodup_cons] at hnd
    rcases List.mem_cons.mp h1 with heq1 | h1'
    · rcases List.mem_cons.mp h2 with heq2 | h2'
      · rw [← heq1] at heq2
        exact (Prod.mk.injEq _ _ _ _ |>.mp heq2.symm).2
      · exfalso
        apply hnd.1
        rw [← heq1]
        exact List.mem_map.mpr ⟨(n, r'), h2', rfl⟩
    · rcases List.mem_cons.mp h2 with heq2 | h2'
      · exfalso
        apply hnd.1
        rw [← heq2]
        exact List.mem_map.mpr ⟨(n, r), h1', rfl⟩
      · exact ih hnd.2 h1' h2'

theorem priorityOf_critical (n : String) {count : Nat} {vo : Bool}
    (h : 10 < count ∨ vo = true) : priorityOf n count vo = .critical := by
  rcases h with h | h <;> simp [priorityOf, h]

theorem priorityOf_high (n : String) {count : Nat} {vo : Bool}
    (h1 : ¬ 10 < count) (h2 : vo = false)
    (h3 : 5 ≤ count ∨ n = "LIVERPOOL_CONFIRM" ∨ n = "WMS") :
    priorityOf n count vo = .high := by
  rcases h3 with h3 | h3 | h3 <;> simp [priorityOf, h1, h2, h3]

theorem priorityOf_medium (n : String) {count : Nat} {vo : Bool}
    (h1 : ¬ 10 < count) (h2 : vo = false)
    (h3 : ¬ (5 ≤ count ∨ n = "LIVERPOOL_CONFIRM" ∨ n = "WMS"))
    (h4 : 2 ≤ count) : priorityOf n count vo = .medium := by
  push_neg at h3
  simp [priorityOf, h1, h2, h3.1, h3.2.1, h3.2.2, h4]

theorem priorityOf_ok (n : String) {count : Nat} {vo : Bool}
    (h1 : ¬ 10 < count) (h2 : vo = false)
    (h3 : ¬ (5 ≤ count ∨ n = "LIVERPOOL_CONFIRM" ∨ n = "WMS"))
    (h4 : ¬ 2 ≤ count) : priorityOf n count vo = .okB := by
  push_neg at h3
  simp [priorityOf, h1, h2, h3.1, h3.2.1, h3.2.2, h4]

/-- The entry `analyze_results` produces for a non-catch-all result with
positive count. -/
theorem resultEntry_pos (n : String) {r : QResult} (hcat : r.is_catchall = false)
    (hpos : 0 < r.count) :
    resultEntry n r = some (priorityOf n r.count (veryOldTasks r.data), mkIssue n r) := by
  unfold resultEntry
  rw [hcat]
  simp only [Bool.false_eq_true, if_false]
  rw [if_neg (Nat.pos_iff_ne_zero.mp hpos)]
  rfl

/-- An issue never sits in two distinct buckets. -/
theorem mem_bucket_unique {rs : List (String × QResult)} {i : Issue} {b b' : Bucket}
    (h : i ∈ (analyze_results rs).bucketList b)
    (h' : i ∈ (analyze_results rs).bucketList b') : b = b' := by
  obtain ⟨p, _, hpe⟩ := entry_of_mem_bucket h
  obtain ⟨q, _, hqe⟩ := entry_of_mem_bucket h'
  rw [bucket_eq_issueBucket hpe, bucket_eq_issueBucket hqe]

/-- C1: for a non-catch-all result with positive count, `analyze_results`
appends its issue to `critical` when the count exceeds 10 or the first
row's `last_run` is a datetime more than 15 days old; otherwise to `high`
when the count is at least 5 or the query is `LIVERPOOL_CONFIRM` or `WMS`;
otherwise to `medium` when the count is at least 2 — and the issue sits in
exactly one bucket. -/
theorem C1_priority_buckets (rs : List (String × QResult)) (n : String) (r : QResult)
    (hmem : (n, r) ∈ rs) (hcat : r.is_catchall = false) (hpos : 0 < r.count) :
    ((10 < r.count ∨ firstRowVeryOld r.data) →
      resultEntry n r = some (.critical, mkIssue n r) ∧
        mkIssue n r ∈ (analyze_results rs).critical) ∧
    (¬ (10 < r.count ∨ firstRowVeryOld r.data) →
      (5 ≤ r.count ∨ n = "LIVERPOOL_CONFIRM" ∨ n = "WMS") →
      resultEntry n r = some (.high, mkIssue n r) ∧
        mkIssue n r ∈ (analyze_results rs).high) ∧
    (¬ (10 < r.count ∨ firstRowVeryOld r.data) →
      ¬ (5 ≤ r.count ∨ n = "LIVERPOOL_CONFIRM" ∨ n = "WMS") →
      2 ≤ r.count →
      resultEntry n r = some (.medium, mkIssue n r) ∧
        mkIssue n r ∈ (analyze_results rs).medium) ∧
    (∀ b b', mkIssue n r ∈ (analyze_results rs).bucketList b →
      mkIssue n r ∈ (analyze_results rs).bucketList b' → b = b') := by
  have hentry := resultEntry_pos n hcat hpos
  refine ⟨?_, ?_, ?_, fun b b' hb hb' => mem_bucket_unique hb hb'⟩
  · intro h
    have hp : priorityOf n r.count (veryOldTasks r.data) = .critical := by
      apply priorityOf_critical n
      rcases h with h | h
      · exact Or.inl h
      · exact Or.inr ((veryOldTasks_iff r.data).mpr h)
    rw [hp] at hentry
    exact ⟨hentry, mem_bucket_of_entry hmem hentry⟩
  · intro h h3
    have hvo : veryOldTasks r.data = false := by
      cases hv : veryOldTasks r.data
      · rfl
      · exact absurd (Or.inr ((veryOldTasks_iff r.data).mp hv)) h
    have hp := priorityOf_high n (fun hlt => h (Or.inl hlt)) hvo h3
    rw [hp] at hentry
    exact ⟨hentry, mem_bucket_of_entry hmem hentry⟩
  · intro h h3 h4
    have hvo : veryOldTasks r.data = false := by
      cases hv : veryOldTasks r.data
      · rfl
      · exact absurd (Or.inr ((veryOldTasks_iff r.data).mp hv)) h
    have hp := priorityOf_medium n (fun hlt => h (Or.inl hlt)) hvo h3 h4
    rw [hp] at hentry
    exact ⟨hentry, mem_bucket_of_entry hmem hentry⟩

/-- C1 witness: a 12-row `TOKEN` result is appended to `critical`. -/
theorem C1_priority_buckets_witness :
    mkIssue "TOKEN" c1R ∈ (analyze_results c1Results).critical :=
  ((C1_priority_buckets c1Results "TOKEN" c1R (by decide) (by decide)
      (by decide)).1 (Or.inl (by decide))).2

/-- C2 counterexample: a 1-row, not-old, non-special result does not vanish
from the analysis — `analyze_results` appends its (full) issue to the `ok`
bucket. -/
theorem C2_counterexample :
    (analyze_results c2Results).ok.map Issue.name = ["POLLING"] ∧
    (analyze_results c2Results).critical = [] ∧
    (analyze_results c2Results).high = [] ∧
    (analyze_results c2Results).medium = [] ∧
    (analyze_results c2Results).uncategorized = [] := by
  decide

/-- C2 amended: a non-catch-all result with `count == 1`, a first row that
is not a more-than-15-days-old datetime, and a name other than
`LIVERPOOL_CONFIRM`/`WMS` is appended — as a full issue — to the `ok`
bucket (not dropped from the analysis). -/
theorem C2_one_row_goes_to_ok (rs : List (String × QResult)) (n : String) (r : QResult)
    (hmem : (n, r) ∈ rs) (hcat : r.is_catchall = false) (hcount : r.count = 1)
    (hold : ¬ firstRowVeryOld r.data)
    (hn1 : n ≠ "LIVERPOOL_CONFIRM") (hn2 : n ≠ "WMS") :
    resultEntry n r = some (.okB, mkIssue n r) ∧
      mkIssue n r ∈ (analyze_results rs).ok := by
  have hentry := resultEntry_pos n hcat (by omega)
  have hvo : veryOldTasks r.data = false := by
    cases hv : veryOldTasks r.data
    · rfl
    · exact absurd ((veryOldTasks_iff r.data).mp hv) hold
  have hp : priorityOf n r.count (veryOldTasks r.data) = .okB := by
    refine priorityOf_ok n (by omega) hvo ?_ (by omega)
    rintro (h5 | h | h)
    · omega
    · exact hn1 h
    · exact hn2 h
  rw [hp] at hentry
  exact ⟨hentry, mem_bucket_of_entry hmem hentry⟩

/-- C2 amended-claim witness: the concrete 1-row `POLLING` result lands in
the `ok` bucket. -/
theorem C2_one_row_goes_to_ok_witness :
    mkIssue "POLLING" c2R ∈ (analyze_results c2Results).ok :=
  (C2_one_row_goes_to_ok c2Results "POLLING" c2R (by decide) (by decide) (by decide)
    (by rintro ⟨t, a, rend, ht, hl, ha⟩; cases ht; cases hl; omega)
    (by decide) (by decide)).2

/-- C10: a catch-all result with `count == 0` produces no analysis entry at
all — neither in `uncategorized` nor in `ok` — and (under the mapping's
distinct keys) no issue bearing its name appears in any section. -/
theorem C10_zero_catchall_absent (rs : List (String × QResult)) (n : String) (r : QResult)
    (hmem : (n, r) ∈ rs) (hcat : r.is_catchall = true) (hcount : r.count = 0) :
    resultEntry n r = none ∧
    ((rs.map Prod.fst).Nodup →
      ∀ b, ∀ i ∈ (analyze_results rs).bucketList b, i.name ≠ n) := by
  have hentry : resultEntry n r = none := by
    unfold resultEntry
    rw [hcat]
    simp [hcount]
  refine ⟨hentry, fun hnd b i hi hname => ?_⟩
  obtain ⟨⟨n', r'⟩, hp, hpe⟩ := entry_of_mem_bucket hi
  have h2 : i.name = n' := name_of_entry hpe
  have hn : n' = n := by
    rw [← hname]
    exact h2.symm
  subst hn
  have hr : r' = r := nodup_key_unique hnd hp hmem
  rw [hr, hentry] at hpe
  cases hpe

/-- C10 witness: the concrete zero-count catch-all result yields no entry. -/
theorem C10_zero_catchall_absent_witness :
    resultEntry "UNCATEGORIZED_ERRORS" c10R = none :=
  (C10_zero_catchall_absent c10Results "UNCATEGORIZED_ERRORS" c10R (by decide)
    (by decide) (by decide)).1

theorem rtResult_is_catchall (r : QResult) : (rtResult r).is_catchall = r.is_catchall := rfl

theorem rtResult_count (r : QResult) : (rtResult r).count = r.count := rfl

/-- After the JSON round-trip no first row holds a `datetime`, so the age
check is always false on reloaded data. -/
theorem veryOldTasks_rt (l : List Task) : veryOldTasks (l.map rtTask) = false := by
  cases l with
  | nil => rfl
  | cons t ts =>
    simp only [List.map_cons, veryOldTasks, rtTask]
    cases t.last_run with
    | none => rfl
    | some v => cases v <;> simp [rtLastRun, lastRunTruthy]

/-- Bucket and name of an entry are unchanged by the JSON round-trip,
provided the result's bucket did not come from the age rule. -/
theorem rt_entry (n : String) {r : QResult} (hold : ¬ firstRowVeryOld r.data) :
    Option.map (fun q => (q.1, q.2.name)) (resultEntry n (rtResult r)) =
      Option.map (fun q => (q.1, q.2.name)) (resultEntry n r) := by
  have hvo : veryOldTasks r.data = false := by
    cases hv : veryOldTasks r.data
    · rfl
    · exact absurd ((veryOldTasks_iff r.data).mp hv) hold
  have hvo' : veryOldTasks (rtResult r).data = false := veryOldTasks_rt r.data
  unfold resultEntry
  rw [rtResult_is_catchall, rtResult_count]
  by_cases hc : r.is_catchall
  · simp only [hc, if_true]
    by_cases h0 : r.count > 0
    · simp only [h0, if_true]
      simp [Issue.name, buildIssue_name]
    · simp only [h0, if_false]
  · simp only [hc, if_false, Bool.false_eq_true]
    by_cases h0 : r.count = 0
    · simp only [h0, if_true]
      rfl
    · simp only [h0, if_false]
      rw [hvo, hvo']
      simp [Issue.name, buildIssue_name]

/-- C8 counterexample: `save_json` stringifies datetimes (`default=str`), so
after a reload the analyzer's `isinstance(last_run, datetime)` age check no
longer fires: a 1-row result that was `critical` purely by age is
re-bucketed to `ok` by the replayed analysis. -/
theorem C8_counterexample :
    (analyze_results c8Results).critical.map Issue.name = ["ODOO"] ∧
    (analyze_results (saveLoadRoundTrip c8Results)).critical.map Issue.name = [] ∧
    (analyze_results (saveLoadRoundTrip c8Results)).ok.map Issue.name = ["ODOO"] := by
  decide

/-- C8 amended: whenever no result's bucket depends on the age rule (no
first row is a more-than-15-days-old datetime), the analysis of the
JSON-round-tripped results assigns every query name to exactly the same
bucket lists as the analysis of the original in-memory results. -/
theorem C8_roundtrip_preserves_buckets (rs : List (String × QResult))
    (h : ∀ p ∈ rs, ¬ firstRowVeryOld p.2.data) :
    ∀ b, ((analyze_results (saveLoadRoundTrip rs)).bucketList b).map Issue.name =
      ((analyze_results rs).bucketList b).map Issue.name := by
  induction rs with
  | nil => intro b; rfl
  | cons hd tl ih =>
    obtain ⟨n, r⟩ := hd
    have hhd : ¬ firstRowVeryOld r.data := h (n, r) (List.mem_cons_self _ _)
    have htl := ih (fun p hp => h p (List.mem_cons_of_mem _ hp))
    intro b
    have hmap := rt_entry n hhd
    show ((consBucket (resultEntry n (rtResult r))
        (analyze_results (saveLoadRoundTrip tl))).bucketList b).map Issue.name = _
    cases he : resultEntry n r with
    | none =>
      rw [he] at hmap
      cases he' : resultEntry n (rtResult r) with
      | none =>
        rw [bucketList_consBucket_none]
        simp only [analyze_results]
        rw [he, bucketList_consBucket_none]
        exact htl b
      | some q => rw [he'] at hmap; cases hmap
    | some q =>
      obtain ⟨b0, i⟩ := q
      rw [he] at hmap
      cases he' : resultEntry n (rtResult r) with
      | none => rw [he'] at hmap; cases hmap
      | some q' =>
        obtain ⟨b0', i'⟩ := q'
        rw [he'] at hmap
        have hb : b0' = b0 :=
          (Prod.mk.injEq _ _ _ _ |>.mp (Option.some.inj hmap)).1
        have hname : i'.name = i.name :=
          (Prod.mk.injEq _ _ _ _ |>.mp (Option.some.inj hmap)).2
        rw [hb]
        simp only [analyze_results]
        rw [he]
        by_cases hbb : b0 = b
        · subst hbb
          rw [bucketList_consBucket_same, bucketList_consBucket_same]
          simp only [List.map_cons]
          rw [hname, htl b0]
        · rw [bucketList_consBucket_ne hbb, bucketList_consBucket_ne hbb]
          exact htl b

/-- C8 amended-claim witness: on the concrete not-old `POLLING` results the
round-tripped analysis has the same `ok` bucket names. -/
theorem C8_roundtrip_preserves_buckets_witness :
    ((analyze_results (saveLoadRoundTrip c2Results)).bucketList .okB).map Issue.name =
      ((analyze_results c2Results).bucketList .okB).map Issue.name :=
  C8_roundtrip_preserves_buckets c2Results
    (by
      intro p hp
      simp only [c2Results, List.mem_singleton] at hp
      subst hp
      rintro ⟨t, a, rend, ht, hl, ha⟩
      cases ht
      cases hl
      omega) .okB

/-! ## Executor lemmas -/

theorem mem_insertIdNew (m n : Nat) (l : List Nat) (h : m ∈ l) : m ∈ insertIdNew n l := by
  unfold insertIdNew
  split
  · exact h
  · exact List.mem_append_left _ h

theorem self_mem_insertIdNew (n : Nat) (l : List Nat) : n ∈ insertIdNew n l := by
  unfold insertIdNew
  split
  · exact List.elem_iff.mp (by assumption)
  · exact List.mem_append_right _ (List.mem_singleton.mpr rfl)

theorem mem_collectIds_of_mem (m : Nat) (processed : List Nat) (rows : List Task)
    (h : m ∈ processed) : m ∈ collectIds processed rows := by
  induction rows generalizing processed with
  | nil => exact h
  | cons row rest ih =>
    unfold collectIds
    apply ih
    cases row.id with
    | none => exact h
    | some k =>
      show m ∈ if k ≠ 0 then insertIdNew k processed else processed
      by_cases hk : k ≠ 0
      · rw [if_pos hk]
        exact mem_insertIdNew m k _ h
      · rw [if_neg hk]
        exact h

theorem mem_collectIds {row : Task} {rows : List Task} {m : Nat}
    (hrow : row ∈ rows) (hid : row.id = some m) (hm : m ≠ 0) (processed : List Nat) :
    m ∈ collectIds processed rows := by
  induction rows generalizing processed with
  | nil => cases hrow
  | cons r0 rest ih =>
    rcases List.mem_cons.mp hrow with heq | hmem
    · subst heq
      unfold collectIds
      apply mem_collectIds_of_mem
      rw [hid]
      show m ∈ if m ≠ 0 then insertIdNew m processed else processed
      rw [if_pos hm]
      exact self_mem_insertIdNew m processed
    · exact ih hmem _

theorem mem_processed_mono (db : String → Except String (List Task))
    (qs : List QuerySpec) (processed : List Nat) {m : Nat} (h : m ∈ processed) :
    m ∈ (runTypedAux db qs processed).2 := by
  induction qs generalizing processed with
  | nil => exact h
  | cons q rest ih =>
    unfold runTypedAux
    cases db q.name with
    | ok rows => exact ih _ (mem_collectIds_of_mem m processed rows h)
    | error e => exact ih _ h

theorem mem_processed {db : String → Except String (List Task)} {qs : List QuerySpec}
    {q : QuerySpec} {rows : List Task} {row : Task} {m : Nat}
    (hq : q ∈ qs) (hdb : db q.name = .ok rows) (hrow : row ∈ rows)
    (hid : row.id = some m) (hm : m ≠ 0) (processed : List Nat) :
    m ∈ (runTypedAux db qs processed).2 := by
  induction qs generalizing processed with
  | nil => cases hq
  | cons q0 rest ih =>
    rcases List.mem_cons.mp hq with heq | hmem
    · subst heq
      unfold runTypedAux
      rw [hdb]
      exact mem_processed_mono db rest _ (mem_collectIds hrow hid hm processed)
    · unfold runTypedAux
      cases db q0.name with
      | ok rows0 => exact ih hmem _
      | error e => exact ih hmem _

theorem mem_typed_results (db : String → Except String (List Task)) {qs : List QuerySpec}
    {q : QuerySpec} (hq : q ∈ qs) (processed : List Nat) :
    (q.name, typedQResult q (db q.name)) ∈ (runTypedAux db qs processed).1 := by
  induction qs generalizing processed with
  | nil => cases hq
  | cons q0 rest ih =>
    rcases List.mem_cons.mp hq with heq | hmem
    · subst heq
      unfold runTypedAux
      cases hdb : db q.name with
      | ok rows => exact List.mem_cons_self _ _
      | error e => exact List.mem_cons_self _ _
    · unfold runTypedAux
      cases db q0.name with
      | ok rows0 => exact List.mem_cons_of_mem _ (ih hmem _)
      | error e => exact List.mem_cons_of_mem _ (ih hmem _)

theorem getLast?_append_singleton {α : Type} (l : List α) (a : α) :
    (l ++ [a]).getLast? = some a :=
  List.getLast?_append_cons l a []

/-- C4: a failing query is recorded as `{description, count: 0, data: [],
error}`; every other query still executes and records the result of its own
outcome; a failing catch-all is recorded the same way (plus
`is_catchall`); and the cursor/connection closes always happen (the
`finally` runs on every path, since all exceptions are caught per query). -/
theorem C4_error_isolation (queries : List QuerySpec) (catchall : QuerySpec)
    (db : String → Except String (List Task)) :
    (∀ q ∈ queries, ∀ e, db q.name = .error e →
      (q.name, { count := 0, data := [], description := q.description,
                 error := some e : QResult})
        ∈ (execute_all_queries queries catchall db).results) ∧
    (∀ q ∈ queries, ∀ rows, db q.name = .ok rows →
      (q.name, { count := rows.length, data := rows,
                 description := q.description : QResult})
        ∈ (execute_all_queries queries catchall db).results) ∧
    (∀ e, db catchall.name = .error e →
      (execute_all_queries queries catchall db).results.getLast? =
        some (catchall.name,
          { count := 0, data := [], description := catchall.description,
            is_catchall := true, error := some e })) ∧
    (execute_all_queries queries catchall db).cursorClosed = true ∧
    (execute_all_queries queries catchall db).connectionClosed = true := by
  refine ⟨?_, ?_, ?_, rfl, rfl⟩
  · intro q hq e hdb
    have h := mem_typed_results db hq []
    rw [hdb] at h
    exact List.mem_append_left _ h
  · intro q hq rows hdb
    have h := mem_typed_results db hq []
    rw [hdb] at h
    exact List.mem_append_left _ h
  · intro e hdb
    show ((runTypedAux db queries []).1 ++
      [(catchall.name, catchallQResult catchall _ (db catchall.name))]).getLast? = _
    rw [hdb, getLast?_append_singleton]
    rfl

/-- C4 witness: with `POLLING` failing, its error entry is recorded while
`TOKEN` still records an ordinary empty result. -/
theorem C4_error_isolation_witness :
    ("POLLING", { count := 0, data := [], description := "Marketplace polling tasks stuck",
                  error := some "Lost connection to MySQL server" : QResult})
      ∈ (execute_all_queries QUERIES UNCATEGORIZED_ERRORS_QUERY c4db).results ∧
    ("TOKEN", { count := 0, data := [],
                description := "Token renewal tasks stuck" : QResult})
      ∈ (execute_all_queries QUERIES UNCATEGORIZED_ERRORS_QUERY c4db).results :=
  ⟨(C4_error_isolation QUERIES UNCATEGORIZED_ERRORS_QUERY c4db).1
      ⟨"POLLING", "Marketplace polling tasks stuck"⟩ (by decide)
      "Lost connection to MySQL server" rfl,
   (C4_error_isolation QUERIES UNCATEGORIZED_ERRORS_QUERY c4db).2.1
      ⟨"TOKEN", "Token renewal tasks stuck"⟩ (by decide) [] rfl⟩

/-- C3: when the catch-all query succeeds, the final (last-recorded)
catch-all result excludes every row whose id any typed query returned
(given the returned ids are truthy, as database primary keys are), its
`count` is the length of the filtered rows, `total_before_filter` is the
unfiltered row count, and `filtered_count` is their difference. -/
theorem C3_catchall_exclusive (queries : List QuerySpec) (catchall : QuerySpec)
    (db : String → Except String (List Task)) (allRows : List Task)
    (hdb : db catchall.name = .ok allRows)
    (htruthy : ∀ q ∈ queries, ∀ rows, db q.name = .ok rows →
      ∀ row ∈ rows, truthyId row.id = true) :
    (execute_all_queries queries catchall db).results.getLast? =
      some (catchall.name, catchallRes queries catchall db) ∧
    (∀ row ∈ (catchallRes queries catchall db).data,
      ∀ q ∈ queries, ∀ rows, db q.name = .ok rows →
        ∀ row2 ∈ rows, row.id ≠ row2.id) ∧
    (catchallRes queries catchall db).count = (catchallRes queries catchall db).data.length ∧
    (catchallRes queries catchall db).total_before_filter = some allRows.length ∧
    (catchallRes queries catchall db).filtered_count =
      some (allRows.length - (catchallRes queries catchall db).data.length) := by
  have hres : catchallRes queries catchall db =
      catchallQResult catchall (runTypedAux db queries []).2 (.ok allRows) := by
    unfold catchallRes runTypedQueries
    rw [hdb]
  refine ⟨?_, ?_, ?_, ?_, ?_⟩
  · show ((runTypedAux db queries []).1 ++
      [(catchall.name, catchallQResult catchall _ (db catchall.name))]).getLast? = _
    rw [getLast?_append_singleton, catchallRes, runTypedQueries]
  · intro row hrow q hq rows hrows row2 hrow2 heq
    rw [hres] at hrow
    simp only [catchallQResult] at hrow
    have hpred := List.of_mem_filter hrow
    have htr := htruthy q hq rows hrows row2 hrow2
    cases hid2 : row2.id with
    | none => rw [hid2] at htr; cases htr
    | some m =>
      have hm : m ≠ 0 := by
        rw [hid2] at htr
        simpa [truthyId] using htr
      have hmem : m ∈ (runTypedAux db queries []).2 :=
        mem_processed hq hrows hrow2 hid2 hm []
      rw [heq, hid2] at hpred
      simp only [Bool.not_eq_true'] at hpred
      have hmem2 : List.elem m ((runTypedAux db queries []).2) = true :=
        List.elem_iff.mpr hmem
      have hpred2 : List.elem m ((runTypedAux db queries []).2) = false := hpred
      rw [hpred2] at hmem2
      cases hmem2
  · rw [hres]; rfl
  · rw [hres]; rfl
  · rw [hres]; rfl

/-- C3 witness: a task returned by `WMS` that also matches the catch-all
query appears only in the `WMS` result; the final catch-all result keeps
only the other row and counts the overlap in `filtered_count`. -/
theorem C3_catchall_exclusive_witness :
    (execute_all_queries [wmsSpec] UNCATEGORIZED_ERRORS_QUERY c3db).results.getLast? =
      some ("UNCATEGORIZED_ERRORS", catchallRes [wmsSpec] UNCATEGORIZED_ERRORS_QUERY c3db) ∧
    (catchallRes [wmsSpec] UNCATEGORIZED_ERRORS_QUERY c3db).data.map Task.id = [some 202] ∧
    (catchallRes [wmsSpec] UNCATEGORIZED_ERRORS_QUERY c3db).filtered_count = some 1 ∧
    (catchallRes [wmsSpec] UNCATEGORIZED_ERRORS_QUERY c3db).total_before_filter = some 2 ∧
    ("WMS", { count := 1, data := [wmsRow],
              description := "WMS integration tasks with errors" : QResult})
      ∈ (execute_all_queries [wmsSpec] UNCATEGORIZED_ERRORS_QUERY c3db).results := by
  refine ⟨?_, by decide, by decide, by decide, by decide⟩
  exact (C3_catchall_exclusive [wmsSpec] UNCATEGORIZED_ERRORS_QUERY c3db
    [wmsRow, otherRow] rfl
    (by
      intro q hq rows hrows row hrow
      have hq' : q = wmsSpec := List.mem_singleton.mp hq
      subst hq'
      have h2 : (Except.ok [wmsRow] : Except String (List Task)) = .ok rows := hrows
      injection h2 with h3
      subst h3
      have hr : row = wmsRow := List.mem_singleton.mp hrow
      subst hr
      decide)).1

/-- C7: against a backend whose responses always carry the `tool_use` stop
reason, the loop of `analyze_with_claude`/`analyze_single_error` stops after
exactly 10 iterations (`tool_iterations = 10`) and the response of the last
API call — the 11th, index 10 — is used as the final answer. -/
theorem C7_tool_loop_cap (backend : Nat → ModelResponse)
    (h : ∀ n, (backend n).stop_reason = "tool_use") :
    runToolLoop backend = (backend 10, 10) := by
  have step : ∀ fuel iteration resp, resp.stop_reason = "tool_use" →
      toolLoopAux backend (fuel + 1) iteration resp =
        toolLoopAux backend fuel (iteration + 1) (backend (iteration + 1)) := by
    intro fuel iteration resp hr
    rw [toolLoopAux, if_pos hr]
  unfold runToolLoop
  rw [step 9 0 _ (h 0), step 8 1 _ (h 1), step 7 2 _ (h 2), step 6 3 _ (h 3),
    step 5 4 _ (h 4), step 4 5 _ (h 5), step 3 6 _ (h 6), step 2 7 _ (h 7),
    step 1 8 _ (h 8), step 0 9 _ (h 9)]
  rfl

/-- C7 witness: the always-`tool_use` backend stops at iteration 10 with the
latest response as final. -/
theorem C7_tool_loop_cap_witness :
    runToolLoop c7Backend = (⟨"tool_use", "requesting newrelic_get_error_stats"⟩, 10) :=
  C7_tool_loop_cap c7Backend (fun _ => rfl)

/-- C9: both tool dispatchers always answer with a success/failure
envelope: a constructor failure (missing credentials) or a raising client
call is reported as the failure envelope, and so is an unrecognized tool
name — nothing propagates. -/
theorem C9_tool_dispatch_envelopes {α : Type} (nb : NRBackend α) (gb : GHBackend α)
    (tool_name : String) (ni : NRToolInput) (gi : GHToolInput) :
    ((∃ d, execute_newrelic_tool nb tool_name ni = .success d) ∨
      (∃ e, execute_newrelic_tool nb tool_name ni = .failure e)) ∧
    ((∃ d, execute_github_tool gb tool_name gi = .success d) ∨
      (∃ e, execute_github_tool gb tool_name gi = .failure e)) ∧
    (∀ e, nb.init = .error e → execute_newrelic_tool nb tool_name ni = .failure e) ∧
    (∀ e, gb.init = .error e → execute_github_tool gb tool_name gi = .failure e) ∧
    (nb.init = .ok () →
      tool_name ∉ ["newrelic_get_error_by_task_id", "newrelic_get_errors_by_pattern",
        "newrelic_get_error_stats"] →
      execute_newrelic_tool nb tool_name ni = .failure ("Unknown tool: " ++ tool_name)) ∧
    (gb.init = .ok () →
      tool_name ∉ ["github_get_file", "github_get_code_from_stack_trace",
        "github_get_code_context", "github_search_file"] →
      execute_github_tool gb tool_name gi = .failure ("Unknown tool: " ++ tool_name)) ∧
    (∀ tid e, nb.init = .ok () → tool_name = "newrelic_get_error_by_task_id" →
      ni.task_id = some tid →
      nb.get_error_by_task_id tid (ni.days_back.getD 7) = .error e →
      execute_newrelic_tool nb tool_name ni = .failure e) ∧
    (∀ p e, nb.init = .ok () → tool_name = "newrelic_get_errors_by_pattern" →
      ni.error_pattern = some p →
      nb.get_errors_by_pattern p (ni.days_back.getD 7) (ni.limit.getD 10) = .error e →
      execute_newrelic_tool nb tool_name ni = .failure e) ∧
    (∀ p e, nb.init = .ok () → tool_name = "newrelic_get_error_stats" →
      ni.error_pattern = some p →
      nb.get_error_count_by_pattern p (ni.days_back.getD 7) = .error e →
      execute_newrelic_tool nb tool_name ni = .failure e) ∧
    (∀ p e, gb.init = .ok () → tool_name = "github_get_file" →
      gi.file_path = some p →
      gb.get_file_content "elevva" "elevvate-core" p (gi.branch.getD "develop") = .error e →
      execute_github_tool gb tool_name gi = .failure e) := by
  refine ⟨?_, ?_, ?_, ?_, ?_, ?_, ?_, ?_, ?_, ?_⟩
  · cases h2 : execute_newrelic_tool nb tool_name ni with
    | success d => exact Or.inl ⟨d, rfl⟩
    | failure e => exact Or.inr ⟨e, rfl⟩
  · cases h2 : execute_github_tool gb tool_name gi with
    | success d => exact Or.inl ⟨d, rfl⟩
    | failure e => exact Or.inr ⟨e, rfl⟩
  · intro e he
    simp [execute_newrelic_tool, he]
  · intro e he
    simp [execute_github_tool, he]
  · intro hinit hn
    have h1 : ¬ tool_name = "newrelic_get_error_by_task_id" := fun h => hn (by simp [h])
    have h2 : ¬ tool_name = "newrelic_get_errors_by_pattern" := fun h => hn (by simp [h])
    have h3 : ¬ tool_name = "newrelic_get_error_stats" := fun h => hn (by simp [h])
    simp [execute_newrelic_tool, hinit, h1, h2, h3]
  · intro hinit hn
    have h1 : ¬ tool_name = "github_get_file" := fun h => hn (by simp [h])
    have h2 : ¬ tool_name = "github_get_code_from_stack_trace" := fun h => hn (by simp [h])
    have h3 : ¬ tool_name = "github_get_code_context" := fun h => hn (by simp [h])
    have h4 : ¬ tool_name = "github_search_file" := fun h => hn (by simp [h])
    simp [execute_github_tool, hinit, h1, h2, h3, h4]
  · intro tid e hinit htool hti hcall
    subst htool
    simp [execute_newrelic_tool, hinit, hti, hcall, wrapCall]
  · intro p e hinit htool hp hcall
    subst htool
    simp [execute_newrelic_tool, hinit, hp, hcall, wrapCall]
  · intro p e hinit htool hp hcall
    subst htool
    simp [execute_newrelic_tool, hinit, hp, hcall, wrapCall]
  · intro p e hinit htool hp hcall
    subst htool
    simp [execute_github_tool, hinit, hp, hcall, wrapCall]

/-- C9 witness: a missing-credentials APM dispatcher and an unknown tool
name both come back as failure envelopes. -/
theorem C9_tool_dispatch_envelopes_witness :
    execute_newrelic_tool c9NR "bogus_tool" {} = .failure "NEW_RELIC_API_KEY not provided" ∧
    execute_github_tool c9GH "bogus_tool" {} = .failure ("Unknown tool: " ++ "bogus_tool") :=
  ⟨(C9_tool_dispatch_envelopes c9NR c9GH "bogus_tool" {} {}).2.2.1
      "NEW_RELIC_API_KEY not provided" rfl,
   (C9_tool_dispatch_envelopes c9NR c9GH "bogus_tool" {} {}).2.2.2.2.2.1
      rfl (by decide)⟩

/-! ## Grouping lemmas -/

theorem groupFold_single (exc pat : String) :
    ∀ (tasks : List Task) (g : PatternGroup),
    (∀ t ∈ tasks, t.exception.getD "UnknownException" = exc ∧
      normalize_error_message t.error_message = pat) →
    tasks.foldl groupStep [(exc, [(pat, g)])] =
      [(exc, [(pat, tasks.foldl (fun g t => addTaskToPG pat t g) g)])] := by
  intro tasks
  induction tasks with
  | nil => intro g _; rfl
  | cons t rest ih =>
    intro g h
    have ht := h t (List.mem_cons_self _ _)
    have hstep : groupStep [(exc, [(pat, g)])] t = [(exc, [(pat, addTaskToPG pat t g)])] := by
      simp [groupStep, ht.1, ht.2, updAList]
    rw [List.foldl_cons, hstep, ih _ (fun t' h' => h t' (List.mem_cons_of_mem _ h')),
      List.foldl_cons]

theorem groupErrorsAux_single (exc pat : String) (tasks : List Task) (hne : tasks ≠ [])
    (h : ∀ t ∈ tasks, t.exception.getD "UnknownException" = exc ∧
      normalize_error_message t.error_message = pat) :
    groupErrorsAux tasks =
      [(exc, [(pat, tasks.foldl (fun g t => addTaskToPG pat t g) emptyPG)])] := by
  cases tasks with
  | nil => cases hne rfl
  | cons t rest =>
    have ht := h t (List.mem_cons_self _ _)
    have hstep0 : groupStep [] t = [(exc, [(pat, addTaskToPG pat t emptyPG)])] := by
      simp [groupStep, ht.1, ht.2, updAList]
    unfold groupErrorsAux
    rw [List.foldl_cons, hstep0,
      groupFold_single exc pat rest _ (fun t' h' => h t' (List.mem_cons_of_mem _ h')),
      ← List.foldl_cons]

theorem pgFold_count (pat : String) :
    ∀ (tasks : List Task) (g : PatternGroup),
    (tasks.foldl (fun g t => addTaskToPG pat t g) g).count = g.count + tasks.length := by
  intro tasks
  induction tasks with
  | nil => intro g; rfl
  | cons t rest ih =>
    intro g
    rw [List.foldl_cons, ih]
    show (addTaskToPG pat t g).count + rest.length = _
    simp only [addTaskToPG, List.length_cons]
    omega

theorem pgFold_all_tasks (pat : String) :
    ∀ (tasks : List Task) (g : PatternGroup),
    (tasks.foldl (fun g t => addTaskToPG pat t g) g).all_tasks = g.all_tasks ++ tasks := by
  intro tasks
  induction tasks with
  | nil => intro g; simp
  | cons t rest ih =>
    intro g
    rw [List.foldl_cons, ih]
    show (addTaskToPG pat t g).all_tasks ++ rest = _
    simp only [addTaskToPG]
    rw [List.append_assoc, List.singleton_append]

theorem pgFold_pattern (pat : String) :
    ∀ (tasks : List Task) (g : PatternGroup), g.pattern = pat →
    (tasks.foldl (fun g t => addTaskToPG pat t g) g).pattern = pat := by
  intro tasks
  induction tasks with
  | nil => intro g hg; exact hg
  | cons t rest ih =>
    intro g _
    rw [List.foldl_cons]
    exact ih _ rfl

/-- C6: a task list sharing one exception and one normalized pattern yields
exactly one ErrorGroup, whose count is the number of tasks, whose
`task_ids` are the ids of the first 10 tasks in input order, and whose
`group_key` is the exception, `::`, and the pattern truncated to 50
characters; and for every input the returned list is sorted by count in
descending order. -/
theorem C6_single_group_and_sorted (tasks : List Task) (exc pat : String)
    (hne : tasks ≠ [])
    (hexc : ∀ t ∈ tasks, t.exception = some exc)
    (hpat : ∀ t ∈ tasks, normalize_error_message t.error_message = pat) :
    ((create_error_groups_for_issue tasks).map
        (fun g => (g.group_key, g.exception, g.pattern, g.count, g.task_ids)) =
      [(exc ++ "::" ++ pat.take 50, exc, pat, tasks.length,
        (tasks.take 10).map Task.id)]) ∧
    (∀ data : List Task,
      List.Sorted (fun a b => b.count ≤ a.count) (create_error_groups_for_issue data)) := by
  constructor
  · have h : ∀ t ∈ tasks, t.exception.getD "UnknownException" = exc ∧
        normalize_error_message t.error_message = pat :=
      fun t ht => ⟨by rw [hexc t ht]; rfl, hpat t ht⟩
    have hga := groupErrorsAux_single exc pat tasks hne h
    have hcount : (tasks.foldl (fun g t => addTaskToPG pat t g) emptyPG).count =
        tasks.length := by
      rw [pgFold_count]
      simp [emptyPG]
    have hall : (tasks.foldl (fun g t => addTaskToPG pat t g) emptyPG).all_tasks =
        tasks := by
      rw [pgFold_all_tasks]
      simp [emptyPG]
    have hpatf : (tasks.foldl (fun g t => addTaskToPG pat t g) emptyPG).pattern = pat := by
      cases tasks with
      | nil => cases hne rfl
      | cons t rest =>
        rw [List.foldl_cons]
        exact pgFold_pattern pat rest _ rfl
    unfold create_error_groups_for_issue group_errors_by_pattern
    rw [hga]
    simp [convertPG, List.insertionSort, List.orderedInsert, hcount, hall, hpatf]
  · intro data
    unfold create_error_groups_for_issue
    haveI : IsTotal ErrorGroup (fun a b => b.count ≤ a.count) :=
      ⟨fun a b => le_total b.count a.count⟩
    haveI : IsTrans ErrorGroup (fun a b => b.count ≤ a.count) :=
      ⟨fun a b c hab hbc => le_trans hbc hab⟩
    exact List.sorted_insertionSort _ _

set_option maxRecDepth 8000 in
/-- C6 witness: 15 identical-pattern tasks produce one group with count 15,
the first 10 ids, and the `exception::pattern` key. -/
theorem C6_single_group_and_sorted_witness :
    (create_error_groups_for_issue c6Tasks).map
        (fun g => (g.group_key, g.exception, g.pattern, g.count, g.task_ids)) =
      [("ShopifyApiError::boom", "ShopifyApiError", "boom", 15,
        [some 1, some 2, some 3, some 4, some 5, some 6, some 7, some 8,
         some 9, some 10])] :=
  (C6_single_group_and_sorted c6Tasks "ShopifyApiError" "boom" (by decide)
    (by decide) (by decide)).1

/-- C5: the behavior of `normalize_error_message` on the reference inputs:
empty and missing messages give the literal fallback and the UUID is
replaced, but on `'Error fetching order #98765 from Shopify'` the
keyword rule (pattern 2) consumes the `#`, so the output keeps no `#{ID}` —
against the claim and the function's own docstring, which promise
`'Error fetching order #{ID} from Shopify'`.  The `#`-rule alone (pattern 3)
does produce `#{ID}` when no keyword precedes, and the two docstring-shaped
messages differing only in the numeric id still normalize identically. -/
theorem C5_normalize_behavior :
    normalize_error_message none = "No error message" ∧
    normalize_error_message (some "") = "No error message" ∧
    normalize_error_message (some "UUID: 550e8400-e29b-41d4-a716-446655440000") =
      "UUID: {UUID}" ∧
    normalize_error_message (some "Error fetching order #98765 from Shopify") =
      "Error fetching order {ID} from Shopify" ∧
    normalize_error_message (some "Error fetching order #98765 from Shopify") ≠
      "Error fetching order #{ID} from Shopify" ∧
    normalize_error_message (some "failed #123 now") = "failed #{ID} now" ∧
    normalize_error_message (some "Error fetching order #98765 from Shopify") =
      normalize_error_message (some "Error fetching order #4 from Shopify") := by
  refine ⟨rfl, rfl, by decide, by decide, by decide, by decide, by decide⟩

end TaskMonitor
